import Mathlib

/-!
Shallow embedding of the trip-expense data model and operations of
`src/app/page.tsx` (the "Bros & Bills" single-page app).

Conventions of the embedding:
* JavaScript numbers are modelled as `ℚ` (all arithmetic in the source is
  exact on the decimal inputs the UI produces; no float rounding is relied
  upon by any claim).
* A JSON payload field that may be absent is an `Option`.
* JavaScript truthiness of `x || d` is modelled per type: for numbers the
  falsy values are absence and `0`; for strings absence and `""`; for
  booleans absence and `false`; arrays are always truthy, only absence is
  falsy.
* `crypto.randomUUID()` is modelled by a deterministic id supply: a `Nat`
  counter threaded through the migration, each generated id consuming one
  counter value.  Freshness/uniqueness of generated ids corresponds to
  distinct counter values.
-/

structure InfoField where
  id : String
  label : String
  value : String
deriving Repr, DecidableEq

structure ExpenseItem where
  id : String
  name : String
  price : ℚ
  isPerPerson : Bool
  infoFields : List InfoField
deriving Repr, DecidableEq

/-- The nine React state variables of `Home`, i.e. the `TripData` interface. -/
structure TripData where
  tripName : String
  persons : ℚ
  budgetPerPerson : ℚ
  hasAccommodation : Bool
  accommodationLink : String
  accommodationPrice : ℚ
  accommodationNights : ℚ
  basicInfo : List InfoField
  expenses : List ExpenseItem
deriving Repr, DecidableEq

/-- `defaultData` of `getInitialData` (page.tsx lines 126-136). -/
def defaultData : TripData :=
  { tripName := ""
    persons := 2
    budgetPerPerson := 0
    hasAccommodation := false
    accommodationLink := ""
    accommodationPrice := 0
    accommodationNights := 1
    basicInfo := []
    expenses := [] }

/-- `getExpenseTotal` (page.tsx lines 304-306):
`expense.isPerPerson ? expense.price * persons : expense.price`. -/
def getExpenseTotal (persons : ℚ) (e : ExpenseItem) : ℚ :=
  if e.isPerPerson then e.price * persons else e.price

/-- `expensesCost` (page.tsx line 308):
`expenses.reduce((sum, expense) => sum + getExpenseTotal(expense), 0)`. -/
def expensesCost (t : TripData) : ℚ :=
  t.expenses.foldl (fun sum e => sum + getExpenseTotal t.persons e) 0

/-- `accommodationCost` (page.tsx line 309). -/
def accommodationCost (t : TripData) : ℚ :=
  if t.hasAccommodation then t.accommodationPrice else 0

/-- `totalCost` (page.tsx line 310). -/
def totalCost (t : TripData) : ℚ :=
  expensesCost t + accommodationCost t

/-- `costPerPerson` (page.tsx line 311):
`persons > 0 ? totalCost / persons : 0`. -/
def costPerPerson (t : TripData) : ℚ :=
  if t.persons > 0 then totalCost t / t.persons else 0

/-- `pricePerNight` (page.tsx line 312). -/
def pricePerNight (t : TripData) : ℚ :=
  if t.accommodationNights > 0 then t.accommodationPrice / t.accommodationNights else 0

/-- `totalBudget` (page.tsx line 313). -/
def totalBudget (t : TripData) : ℚ :=
  t.budgetPerPerson * t.persons

/-- `remaining` (page.tsx line 314). -/
def remaining (t : TripData) : ℚ :=
  totalBudget t - totalCost t

theorem expensesCost_foldl_general (p : ℚ) (es : List ExpenseItem) (a : ℚ) :
    es.foldl (fun sum e => sum + getExpenseTotal p e) a
      = a + (es.map (getExpenseTotal p)).sum := by
  induction es generalizing a with
  | nil => simp
  | cons e rest ih =>
      simp only [List.foldl_cons, List.map_cons, List.sum_cons, ih]
      ring

theorem expensesCost_eq_sum (t : TripData) :
    expensesCost t = (t.expenses.map (getExpenseTotal t.persons)).sum := by
  unfold expensesCost
  rw [expensesCost_foldl_general]
  ring

/-! ## JavaScript `||` fallbacks -/

/-- JS `x || d` where `x : string | undefined` (falsy: absent, `""`). -/
def jsOrStr (x : Option String) (d : String) : String :=
  match x with
  | none => d
  | some s => if s = "" then d else s

/-- JS `x || d` where `x : number | undefined` (falsy: absent, `0`). -/
def jsOrNum (x : Option ℚ) (d : ℚ) : ℚ :=
  match x with
  | none => d
  | some q => if q = 0 then d else q

/-- JS `x || d` where `x : boolean | undefined` (falsy: absent, `false`). -/
def jsOrBool (x : Option Bool) (d : Bool) : Bool :=
  match x with
  | none => d
  | some b => if b = false then d else b

/-- JS `x || d` where `x : array | undefined` (any array is truthy). -/
def jsOrList {α : Type} (x : Option (List α)) (d : List α) : List α :=
  match x with
  | none => d
  | some l => l

/-- JS truthiness of an optional string (used for `expense.link ? … : …`). -/
def strTruthy (x : Option String) : Bool :=
  match x with
  | none => false
  | some s => s ≠ ""

/-! ## Raw (JSON) payload shapes and the legacy-field migration -/

/-- An expense as it appears in a parsed JSON payload: `infoFields` may be
absent, and the legacy flat fields `link` / `notes` may be present. -/
structure RawExpense where
  id : String
  name : String
  price : ℚ
  isPerPerson : Bool
  infoFields : Option (List InfoField)
  link : Option String
  notes : Option String
deriving Repr, DecidableEq

/-- A trip as it appears in a parsed JSON payload: every field may be absent. -/
structure RawTrip where
  tripName : Option String
  persons : Option ℚ
  budgetPerPerson : Option ℚ
  hasAccommodation : Option Bool
  accommodationLink : Option String
  accommodationPrice : Option ℚ
  accommodationNights : Option ℚ
  basicInfo : Option (List InfoField)
  expenses : Option (List RawExpense)
deriving Repr, DecidableEq

/-- The deterministic model of `crypto.randomUUID()`: the `n`-th id drawn
from the supply. -/
def genId (n : Nat) : String := "uuid-" ++ toString n

/-- The per-expense migration applied identically in `getInitialData`
(page.tsx lines 147-154) and `importData` (lines 375-381):
`{...expense, infoFields: expense.infoFields || [ ...(expense.link ? [Link] : []), ...(expense.notes ? [Notes] : []) ]}`.
Note `expense.infoFields || …` falls back only when `infoFields` is absent:
a present empty array is truthy in JS.  Returns the migrated expense and
the advanced id supply. -/
def migrateExpense (n : Nat) (e : RawExpense) : ExpenseItem × Nat :=
  match e.infoFields with
  | some fs =>
      ({ id := e.id, name := e.name, price := e.price, isPerPerson := e.isPerPerson
         infoFields := fs }, n)
  | none =>
      let linkEntries : List InfoField :=
        if strTruthy e.link then [{ id := genId n, label := "Link", value := e.link.getD "" }] else []
      let n1 : Nat := if strTruthy e.link then n + 1 else n
      let notesEntries : List InfoField :=
        if strTruthy e.notes then [{ id := genId n1, label := "Notes", value := e.notes.getD "" }] else []
      let n2 : Nat := if strTruthy e.notes then n1 + 1 else n1
      ({ id := e.id, name := e.name, price := e.price, isPerPerson := e.isPerPerson
         infoFields := linkEntries ++ notesEntries }, n2)

/-- `expenses.map(migrate)` threading the id supply left to right. -/
def migrateExpenses (n : Nat) : List RawExpense → List ExpenseItem × Nat
  | [] => ([], n)
  | e :: rest =>
      let (e', n') := migrateExpense n e
      let (rest', n'') := migrateExpenses n' rest
      (e' :: rest', n'')

/-! ## Load (`getInitialData`), export and import -/

/-- `getInitialData` (page.tsx lines 125-162).  `saved = none` models no
record under the storage key; `saved = some none` a record whose
`JSON.parse` throws; `saved = some (some data)` a parsable record.  A
parsable record is merged onto `defaultData` by object spread
(`{...defaultData, ...data}`: a present field wins even when falsy, an
absent field keeps its default), with the expense migration applied first
when `data.expenses` is present. -/
def getInitialData (saved : Option (Option RawTrip)) (n : Nat) : TripData :=
  match saved with
  | none => defaultData
  | some none => defaultData
  | some (some data) =>
      { tripName := data.tripName.getD defaultData.tripName
        persons := data.persons.getD defaultData.persons
        budgetPerPerson := data.budgetPerPerson.getD defaultData.budgetPerPerson
        hasAccommodation := data.hasAccommodation.getD defaultData.hasAccommodation
        accommodationLink := data.accommodationLink.getD defaultData.accommodationLink
        accommodationPrice := data.accommodationPrice.getD defaultData.accommodationPrice
        accommodationNights := data.accommodationNights.getD defaultData.accommodationNights
        basicInfo := data.basicInfo.getD defaultData.basicInfo
        expenses := (data.expenses.map (fun es => (migrateExpenses n es).1)).getD defaultData.expenses }

/-- `exportData` (page.tsx lines 346-356): `JSON.stringify` of the nine
state variables.  Every trip-level field is present in the output; each
exported expense carries its `infoFields` array and no legacy `link` /
`notes` keys. -/
def exportData (t : TripData) : RawTrip :=
  { tripName := some t.tripName
    persons := some t.persons
    budgetPerPerson := some t.budgetPerPerson
    hasAccommodation := some t.hasAccommodation
    accommodationLink := some t.accommodationLink
    accommodationPrice := some t.accommodationPrice
    accommodationNights := some t.accommodationNights
    basicInfo := some t.basicInfo
    expenses := some (t.expenses.map (fun e =>
      { id := e.id, name := e.name, price := e.price, isPerPerson := e.isPerPerson
        infoFields := some e.infoFields, link := none, notes := none })) }

/-- `importData` (page.tsx lines 360-391), from the point where the file
content has been read.  `parsed = none` models a `JSON.parse` throw: the
`catch` branch reports failure and runs no setter, so the state `s` is
returned unchanged.  On success the seven setters run
(`tripName || ""`, `persons || 2`, `budgetPerPerson || 0`,
`hasAccommodation || false`, `accommodationLink || ""`, `basicInfo || []`,
and the migrated `(expenses || [])`); `accommodationPrice` and
`accommodationNights` have no setter call in `importData`, so they keep
the pre-import state.  The `Bool` is the success toast (`true`) vs the
failure toast (`false`). -/
def importData (parsed : Option RawTrip) (s : TripData) (n : Nat) : TripData × Bool :=
  match parsed with
  | none => (s, false)
  | some data =>
      ({ tripName := jsOrStr data.tripName ""
         persons := jsOrNum data.persons 2
         budgetPerPerson := jsOrNum data.budgetPerPerson 0
         hasAccommodation := jsOrBool data.hasAccommodation false
         accommodationLink := jsOrStr data.accommodationLink ""
         accommodationPrice := s.accommodationPrice
         accommodationNights := s.accommodationNights
         basicInfo := jsOrList data.basicInfo []
         expenses := (migrateExpenses n (data.expenses.getD [])).1 }, true)

/-! ## Numeric input handlers

The `onChange` handlers of the numeric inputs.  The argument is the result
of `parseInt` / `parseFloat` on the typed text, with `none` standing for
`NaN`; JS `r || d` then yields `d` exactly when `r` is `NaN` or `0`. -/

/-- Travelers input (page.tsx line 530): `setPersons(parseInt(v) || 1)`. -/
def personsFromInput (v : Option Int) : ℚ :=
  match v with
  | none => 1
  | some k => if k = 0 then 1 else (k : ℚ)

/-- Nights input (page.tsx line 597): `setAccommodationNights(parseInt(v) || 1)`. -/
def nightsFromInput (v : Option Int) : ℚ :=
  match v with
  | none => 1
  | some k => if k = 0 then 1 else (k : ℚ)

/-- Expense price input (page.tsx line 743):
`updateExpense(id, "price", parseFloat(v) || 0)`; the budget input (line
545) and the accommodation price input (line 583) use the same
`parseFloat(v) || 0` coercion. -/
def priceFromInput (v : Option ℚ) : ℚ :=
  match v with
  | none => 0
  | some q => if q = 0 then 0 else q

/-! ## Clipboard summary: the budget status line -/

/-- A budget status line of the clipboard summary: `under r` renders as
"✅ Under budget by CHF r", `over r` as "⚠️ Over budget by CHF r" (the
amount is kept exact; `toFixed(2)` is rendering). -/
inductive BudgetLine where
  | under (amount : ℚ)
  | over (amount : ℚ)
deriving Repr, DecidableEq

/-- The budget status tail of `copyToClipboard` (page.tsx lines 441-445):
`if (budgetPerPerson > 0 && remaining >= 0) … under … else if (budgetPerPerson > 0) … over Math.abs(remaining)`,
otherwise nothing is appended. -/
def budgetStatusLine (t : TripData) : Option BudgetLine :=
  if t.budgetPerPerson > 0 ∧ remaining t ≥ 0 then some (.under (remaining t))
  else if t.budgetPerPerson > 0 then some (.over |remaining t|)
  else none

/-! ## Debounced auto-save (the effect at page.tsx lines 199-216)

Discrete-time model of the auto-save effect.  The effect body runs on every
mutation: it clears any pending timeout and schedules a new write of the
current snapshot 500 ms later; the cleanup (and unmount) clears the pending
timeout without flushing it.  `DebounceState.pending` is the single
`saveTimeoutRef` slot (`some (fireTime, snapshot)`), structurally at most
one pending write; `writes` records the `localStorage.setItem` calls in
order. -/

structure DebounceState where
  pending : Option (Nat × TripData)
  writes : List TripData
deriving Repr, DecidableEq

/-- Advance the clock to time `t`: the pending timeout fires iff its fire
time has been reached. -/
def advance (t : Nat) (s : DebounceState) : DebounceState :=
  match s.pending with
  | none => s
  | some (ft, d) => if ft ≤ t then { pending := none, writes := s.writes ++ [d] } else s

/-- A mutation at time `now` with post-mutation snapshot `d`: the effect
re-runs, `clearTimeout` cancels any pending write and `setTimeout`
schedules `d` for `now + 500`. -/
def mutate (now : Nat) (d : TripData) (s : DebounceState) : DebounceState :=
  { pending := some (now + 500, d), writes := s.writes }

/-- Run a time-ordered trace of mutations from state `s`, advancing the
clock to each mutation time first (so a pending write fires if its window
elapsed before the next mutation). -/
def runMutations (s : DebounceState) : List (Nat × TripData) → DebounceState
  | [] => s
  | (t, d) :: rest => runMutations (mutate t d (advance t s)) rest

/-- Teardown (effect cleanup / unmount): `clearTimeout` on the pending
write; nothing is flushed. -/
def teardown (s : DebounceState) : DebounceState :=
  { pending := none, writes := s.writes }

/-- The trace condition "each mutation happens before the previously
scheduled write fires": times are non-decreasing and each successive
mutation is strictly within 500 of its predecessor. -/
def withinWindow : Nat → List (Nat × TripData) → Prop
  | _, [] => True
  | tprev, (t, _) :: rest => tprev ≤ t ∧ t < tprev + 500 ∧ withinWindow t rest

/-! ## Concrete fixtures -/

/-- A payload with every field absent (`{}` parsed). -/
def rawEmpty : RawTrip :=
  { tripName := none, persons := none, budgetPerPerson := none
    hasAccommodation := none, accommodationLink := none
    accommodationPrice := none, accommodationNights := none
    basicInfo := none, expenses := none }

/-- The scenario trip of the spec (§8): 4 persons, one per-person expense of
40, one flat expense of 100, budget 50 per person, accommodation off. -/
def tScenario : TripData :=
  { defaultData with
      persons := 4
      budgetPerPerson := 50
      expenses :=
        [ { id := "a", name := "Dinner", price := 40, isPerPerson := true, infoFields := [] }
        , { id := "b", name := "Villa", price := 100, isPerPerson := false, infoFields := [] } ] }

/-! ## Claims -/

/-- C1: for every trip snapshot and every expense `e`, the expense's
contribution is `e.price × persons` if `e.isPerPerson` and `e.price`
otherwise; `expensesCost` is the sum of these contributions over all
expenses; `accommodationCost` is `accommodationPrice` iff accommodation is
enabled (else 0); `totalCost = expensesCost + accommodationCost`; and
`costPerPerson = totalCost / persons` when `persons > 0`, else 0. -/
theorem C1_totals (t : TripData) (e : ExpenseItem) :
    ((e.isPerPerson = true → getExpenseTotal t.persons e = e.price * t.persons)
      ∧ (e.isPerPerson = false → getExpenseTotal t.persons e = e.price))
    ∧ expensesCost t = (t.expenses.map (getExpenseTotal t.persons)).sum
    ∧ ((t.hasAccommodation = true → accommodationCost t = t.accommodationPrice)
      ∧ (t.hasAccommodation = false → accommodationCost t = 0))
    ∧ totalCost t = expensesCost t + accommodationCost t
    ∧ ((0 < t.persons → costPerPerson t = totalCost t / t.persons)
      ∧ (¬ 0 < t.persons → costPerPerson t = 0)) := by
  refine ⟨⟨fun h => ?_, fun h => ?_⟩, expensesCost_eq_sum t, ⟨fun h => ?_, fun h => ?_⟩,
    rfl, fun h => ?_, fun h => ?_⟩
  · simp [getExpenseTotal, h]
  · simp [getExpenseTotal, h]
  · simp [accommodationCost, h]
  · simp [accommodationCost, h]
  · simp [costPerPerson, h]
  · simp [costPerPerson, h]

/-- Witness for C1 on the spec's §8 scenario trip. -/
theorem C1_totals_witness :
    (getExpenseTotal tScenario.persons
        { id := "a", name := "Dinner", price := 40, isPerPerson := true, infoFields := [] }
      = (40 : ℚ) * tScenario.persons)
    ∧ expensesCost tScenario = (tScenario.expenses.map (getExpenseTotal tScenario.persons)).sum
    ∧ accommodationCost tScenario = 0
    ∧ totalCost tScenario = expensesCost tScenario + accommodationCost tScenario
    ∧ costPerPerson tScenario = totalCost tScenario / tScenario.persons := by
  have h := C1_totals tScenario
    { id := "a", name := "Dinner", price := 40, isPerPerson := true, infoFields := [] }
  exact ⟨h.1.1 rfl, h.2.1, h.2.2.1.2 rfl, h.2.2.2.1,
    h.2.2.2.2.1 (by norm_num [tScenario, defaultData])⟩

/-- C6: a malformed import file (a payload whose `JSON.parse` throws)
leaves the entire in-memory trip state unchanged — all nine fields, no
partial mutation — and reports failure (the failure toast; `false` in the
model). -/
theorem C6_malformed_import_unchanged (s : TripData) (n : Nat) :
    importData none s n = (s, false) := rfl

/-- C10: after a successful import, `persons` equals the payload's
`persons` only when that value is present and nonzero; a present-but-zero
(or absent) `persons` yields the default 2. -/
theorem C10_import_persons_falsy (s : TripData) (n : Nat) (d : RawTrip) :
    (∀ p : ℚ, d.persons = some p → p ≠ 0 → ((importData (some d) s n).1).persons = p)
    ∧ (d.persons = some 0 → ((importData (some d) s n).1).persons = 2)
    ∧ (d.persons = none → ((importData (some d) s n).1).persons = 2) := by
  refine ⟨fun p hp hne => ?_, fun h => ?_, fun h => ?_⟩
  · simp [importData, jsOrNum, hp, hne]
  · simp [importData, jsOrNum, h]
  · simp [importData, jsOrNum, h]

/-- Witness for C10: payload `persons` 3 imports as 3; payload `persons` 0
and absent `persons` both import as 2. -/
theorem C10_import_persons_falsy_witness :
    ((importData (some { rawEmpty with persons := some 3 }) defaultData 0).1).persons = 3
    ∧ ((importData (some { rawEmpty with persons := some 0 }) defaultData 0).1).persons = 2
    ∧ ((importData (some rawEmpty) defaultData 0).1).persons = 2 := by
  refine ⟨(C10_import_persons_falsy defaultData 0 _).1 3 rfl (by norm_num),
    (C10_import_persons_falsy defaultData 0 _).2.1 rfl,
    (C10_import_persons_falsy defaultData 0 _).2.2 rfl⟩

/-- A fully populated trip in the current (non-legacy) shape, used to
exercise the export/import round trip. -/
def tRoundTrip : TripData :=
  { tripName := "Alps"
    persons := 4
    budgetPerPerson := 50
    hasAccommodation := true
    accommodationLink := "https://stay.example"
    accommodationPrice := 300
    accommodationNights := 3
    basicInfo := [{ id := "b1", label := "Dates", value := "June" }]
    expenses := [{ id := "a", name := "Dinner", price := 40, isPerPerson := true, infoFields := [] }] }

/-- C2: the export/import round trip fails on the code.  `exportData`
writes `accommodationPrice` 300 and `accommodationNights` 3, but
`importData` has no setter for either field, so after importing the
exported file into the default in-memory state those two fields keep the
pre-import values 0 and 1 and the resulting state differs from the
exported trip. -/
theorem C2_roundtrip_fails :
    (exportData tRoundTrip).accommodationPrice = some 300
    ∧ (exportData tRoundTrip).accommodationNights = some 3
    ∧ ((importData (some (exportData tRoundTrip)) defaultData 0).1).accommodationPrice = 0
    ∧ ((importData (some (exportData tRoundTrip)) defaultData 0).1).accommodationNights = 1
    ∧ (importData (some (exportData tRoundTrip)) defaultData 0).1 ≠ tRoundTrip := by
  refine ⟨rfl, rfl, rfl, rfl, fun h => ?_⟩
  have hp : ((importData (some (exportData tRoundTrip)) defaultData 0).1).accommodationPrice
      = tRoundTrip.accommodationPrice := by rw [h]
  norm_num [importData, exportData, tRoundTrip, defaultData, jsOrNum] at hp

/-- The in-memory state at the time of the C3 counterexample's import. -/
def sC3 : TripData := { defaultData with accommodationPrice := 7, accommodationNights := 5 }

/-- C3 failing input evaluated on the code: the empty payload `{}` parses
successfully and has no `accommodationPrice`, yet after import
`accommodationPrice` is the pre-import in-memory value 7, not the default
0 (and `accommodationNights` is 5, not the default 1): `importData` has no
setter for these two fields. -/
theorem C3_missing_accommodation_fields_not_defaulted :
    rawEmpty.accommodationPrice = none
    ∧ rawEmpty.accommodationNights = none
    ∧ ((importData (some rawEmpty) sC3 0).1).accommodationPrice = 7
    ∧ ((importData (some rawEmpty) sC3 0).1).accommodationNights = 5
    ∧ (7 : ℚ) ≠ 0 ∧ (5 : ℚ) ≠ 1 := by
  refine ⟨rfl, rfl, rfl, rfl, by norm_num, by norm_num⟩

/-- Actual fallback behavior of `importData`: each field the import
handler reads falls back to its trip-level default when missing —
`tripName` to `""`, `persons` to 2, `budgetPerPerson` to 0,
`hasAccommodation` to `false`, `accommodationLink` to `""`, `basicInfo`
to `[]`, and `expenses` to `[]` — while `accommodationPrice` and
`accommodationNights` are never read from the payload and always keep the
pre-import state. -/
theorem C3_import_missing_defaults (s : TripData) (n : Nat) (d : RawTrip) :
    (d.tripName = none → ((importData (some d) s n).1).tripName = "")
    ∧ (d.persons = none → ((importData (some d) s n).1).persons = 2)
    ∧ (d.budgetPerPerson = none → ((importData (some d) s n).1).budgetPerPerson = 0)
    ∧ (d.hasAccommodation = none → ((importData (some d) s n).1).hasAccommodation = false)
    ∧ (d.accommodationLink = none → ((importData (some d) s n).1).accommodationLink = "")
    ∧ (d.basicInfo = none → ((importData (some d) s n).1).basicInfo = [])
    ∧ (d.expenses = none → ((importData (some d) s n).1).expenses = [])
    ∧ ((importData (some d) s n).1).accommodationPrice = s.accommodationPrice
    ∧ ((importData (some d) s n).1).accommodationNights = s.accommodationNights := by
  refine ⟨fun h => ?_, fun h => ?_, fun h => ?_, fun h => ?_, fun h => ?_, fun h => ?_,
    fun h => ?_, rfl, rfl⟩ <;>
    simp [importData, jsOrStr, jsOrNum, jsOrBool, jsOrList, migrateExpenses, h]

/-- Concrete instance of the `importData` fallback behavior: importing
`{}` into `sC3`. -/
theorem C3_import_missing_defaults_witness :
    ((importData (some rawEmpty) sC3 0).1).tripName = ""
    ∧ ((importData (some rawEmpty) sC3 0).1).persons = 2
    ∧ ((importData (some rawEmpty) sC3 0).1).budgetPerPerson = 0
    ∧ ((importData (some rawEmpty) sC3 0).1).hasAccommodation = false
    ∧ ((importData (some rawEmpty) sC3 0).1).accommodationLink = ""
    ∧ ((importData (some rawEmpty) sC3 0).1).basicInfo = []
    ∧ ((importData (some rawEmpty) sC3 0).1).expenses = []
    ∧ ((importData (some rawEmpty) sC3 0).1).accommodationPrice = sC3.accommodationPrice
    ∧ ((importData (some rawEmpty) sC3 0).1).accommodationNights = sC3.accommodationNights := by
  have h := C3_import_missing_defaults sC3 0 rawEmpty
  exact ⟨h.1 rfl, h.2.1 rfl, h.2.2.1 rfl, h.2.2.2.1 rfl, h.2.2.2.2.1 rfl,
    h.2.2.2.2.2.1 rfl, h.2.2.2.2.2.2.1 rfl, h.2.2.2.2.2.2.2.1, h.2.2.2.2.2.2.2.2⟩

/-- The spec's migration example: legacy `link` present, empty `notes`, and
a present-but-empty `infoFields` array. -/
def eC4 : RawExpense :=
  { id := "e1", name := "X", price := 0, isPerPerson := false
    infoFields := some [], link := some "http://x", notes := some "" }

/-- Counterexample to C4: the spec's own example
`{link: "http://x", notes: "", infoFields: []}` does **not** migrate to a
"Link" entry.  `expense.infoFields || …` falls back only when `infoFields`
is absent — a present empty array is truthy in JS — so the expense keeps
`infoFields = []` and no entry labeled "Link" is synthesized. -/
theorem C4_counterexample :
    eC4.infoFields = some [] ∧ eC4.link = some "http://x" ∧ eC4.notes = some ""
    ∧ (migrateExpense 0 eC4).1.infoFields = []
    ∧ ∀ f ∈ (migrateExpense 0 eC4).1.infoFields, f.label ≠ "Link" := by
  refine ⟨rfl, rfl, rfl, rfl, by decide⟩

/-- C4 (amended): the migration synthesizes `infoFields` only when
`infoFields` is absent from the payload (a present sequence, even an empty
one, is kept untouched); when absent, the synthesized entries are one
labeled "Link" with the link value (only if `link` is non-empty) followed
by one labeled "Notes" with the notes value (only if `notes` is
non-empty), each carrying the id of a distinct fresh draw from the id
supply; with both present the migration consumes two supply draws. -/
theorem C4_migration (n : Nat) (e : RawExpense) :
    (∀ fs, e.infoFields = some fs → (migrateExpense n e).1.infoFields = fs)
    ∧ (e.infoFields = none →
        (migrateExpense n e).1.infoFields
          = (if strTruthy e.link
              then [{ id := genId n, label := "Link", value := e.link.getD "" }] else [])
            ++ (if strTruthy e.notes
              then [{ id := genId (if strTruthy e.link then n + 1 else n)
                      label := "Notes", value := e.notes.getD "" }] else []))
    ∧ (e.infoFields = none → strTruthy e.link → strTruthy e.notes →
        (migrateExpense n e).1.infoFields
          = [{ id := genId n, label := "Link", value := e.link.getD "" },
             { id := genId (n + 1), label := "Notes", value := e.notes.getD "" }]
        ∧ (migrateExpense n e).2 = n + 2) := by
  obtain ⟨eid, ename, eprice, eipp, einfo, elink, enotes⟩ := e
  refine ⟨fun fs h => ?_, fun h => ?_, fun h hl hn => ?_⟩
  · subst h; rfl
  · subst h; rfl
  · subst h
    simp only [migrateExpense]
    simp_all

/-- An expense with absent `infoFields` and both legacy fields non-empty. -/
def eC4b : RawExpense :=
  { id := "e2", name := "Y", price := 1, isPerPerson := true
    infoFields := none, link := some "http://x", notes := some "hi" }

/-- Witness for C4 (amended): a present `infoFields` is kept; `eC4b`
migrates to a "Link" entry followed by a "Notes" entry with distinct
fresh ids. -/
theorem C4_migration_witness :
    (migrateExpense 0 { eC4b with infoFields := some [{ id := "f", label := "L", value := "V" }] }).1.infoFields
      = [{ id := "f", label := "L", value := "V" }]
    ∧ (migrateExpense 0 eC4b).1.infoFields
      = [{ id := genId 0, label := "Link", value := "http://x" },
         { id := genId 1, label := "Notes", value := "hi" }]
    ∧ (migrateExpense 0 eC4b).2 = 2
    ∧ genId 0 ≠ genId 1 := by
  have h1 := (C4_migration 0
    { eC4b with infoFields := some [{ id := "f", label := "L", value := "V" }] }).1
    [{ id := "f", label := "L", value := "V" }] rfl
  have h2 := (C4_migration 0 eC4b).2.2 rfl (by decide) (by decide)
  exact ⟨h1, h2.1, h2.2, by decide⟩

/-- Counterexample to C5: the persons input handler is
`parseInt(v) || 1`, which does not clamp values below 1: typing `-3`
stores `persons = -3 < 1`; likewise `parseFloat(v) || 0` stores a negative
expense price `-5 < 0` unchanged. -/
theorem C5_counterexample :
    personsFromInput (some (-3)) = -3 ∧ ((-3 : ℚ) < 1)
    ∧ priceFromInput (some (-5)) = -5 ∧ ((-5 : ℚ) < 0) := by
  refine ⟨by norm_num [personsFromInput], by norm_num, by norm_num [priceFromInput], by norm_num⟩

/-- C5 (amended): the numeric input handlers coerce unparsable (`NaN`) and
zero input to the field default — 1 for the count-like `persons` and
`accommodationNights`, 0 for money fields — and store any nonzero parsed
value unchanged, including negative values (no clamping below the minimum
occurs); values already in range are preserved in range. -/
theorem C5_input_coercion :
    (personsFromInput none = 1)
    ∧ (personsFromInput (some 0) = 1)
    ∧ (∀ k : Int, k ≠ 0 → personsFromInput (some k) = (k : ℚ))
    ∧ (nightsFromInput none = 1)
    ∧ (nightsFromInput (some 0) = 1)
    ∧ (∀ k : Int, k ≠ 0 → nightsFromInput (some k) = (k : ℚ))
    ∧ (priceFromInput none = 0)
    ∧ (priceFromInput (some 0) = 0)
    ∧ (∀ q : ℚ, q ≠ 0 → priceFromInput (some q) = q)
    ∧ (∀ k : Int, 1 ≤ k → (1 : ℚ) ≤ personsFromInput (some k))
    ∧ (∀ q : ℚ, 0 ≤ q → 0 ≤ priceFromInput (some q)) := by
  refine ⟨rfl, rfl, fun k hk => by simp [personsFromInput, hk],
    rfl, rfl, fun k hk => by simp [nightsFromInput, hk],
    rfl, rfl, fun q hq => by simp [priceFromInput, hq],
    fun k hk => ?_, fun q hq => ?_⟩
  · have hk0 : k ≠ 0 := by omega
    simp only [personsFromInput, hk0, if_false]
    exact_mod_cast hk
  · rcases eq_or_ne q 0 with h | h
    · simp [priceFromInput, h]
    · simpa [priceFromInput, h] using hq

/-- Witness for C5 (amended) at concrete inputs. -/
theorem C5_input_coercion_witness :
    personsFromInput none = 1
    ∧ personsFromInput (some 0) = 1
    ∧ personsFromInput (some (-3)) = ((-3 : Int) : ℚ)
    ∧ nightsFromInput (some (-2)) = ((-2 : Int) : ℚ)
    ∧ priceFromInput (some (-5)) = -5
    ∧ (1 : ℚ) ≤ personsFromInput (some 4)
    ∧ (0 : ℚ) ≤ priceFromInput (some 2) := by
  have h := C5_input_coercion
  exact ⟨h.1, h.2.1, h.2.2.1 (-3) (by norm_num), h.2.2.2.2.2.1 (-2) (by norm_num),
    h.2.2.2.2.2.2.2.2.1 (-5) (by norm_num),
    h.2.2.2.2.2.2.2.2.2.1 4 (by norm_num),
    h.2.2.2.2.2.2.2.2.2.2 2 (by norm_num)⟩

/-- C7: on initialization, an absent or unparsable persisted record yields
the default trip silently; a parsable record is merged onto the defaults —
every field absent in the old data takes its default (tripName `""`,
persons 2, budgetPerPerson 0, hasAccommodation `false`, accommodationLink
`""`, accommodationPrice 0, accommodationNights 1, basicInfo `[]`,
expenses `[]`), every present field keeps its persisted value — and the
legacy-field migration is applied to the expenses. -/
theorem C7_load (n : Nat) (d : RawTrip) :
    (getInitialData none n = defaultData ∧ getInitialData (some none) n = defaultData)
    ∧ ((d.tripName = none → (getInitialData (some (some d)) n).tripName = "")
      ∧ (d.persons = none → (getInitialData (some (some d)) n).persons = 2)
      ∧ (d.budgetPerPerson = none → (getInitialData (some (some d)) n).budgetPerPerson = 0)
      ∧ (d.hasAccommodation = none → (getInitialData (some (some d)) n).hasAccommodation = false)
      ∧ (d.accommodationLink = none → (getInitialData (some (some d)) n).accommodationLink = "")
      ∧ (d.accommodationPrice = none → (getInitialData (some (some d)) n).accommodationPrice = 0)
      ∧ (d.accommodationNights = none → (getInitialData (some (some d)) n).accommodationNights = 1)
      ∧ (d.basicInfo = none → (getInitialData (some (some d)) n).basicInfo = [])
      ∧ (d.expenses = none → (getInitialData (some (some d)) n).expenses = []))
    ∧ ((∀ x, d.tripName = some x → (getInitialData (some (some d)) n).tripName = x)
      ∧ (∀ x, d.persons = some x → (getInitialData (some (some d)) n).persons = x)
      ∧ (∀ x, d.budgetPerPerson = some x → (getInitialData (some (some d)) n).budgetPerPerson = x)
      ∧ (∀ x, d.hasAccommodation = some x → (getInitialData (some (some d)) n).hasAccommodation = x)
      ∧ (∀ x, d.accommodationLink = some x → (getInitialData (some (some d)) n).accommodationLink = x)
      ∧ (∀ x, d.accommodationPrice = some x → (getInitialData (some (some d)) n).accommodationPrice = x)
      ∧ (∀ x, d.accommodationNights = some x → (getInitialData (some (some d)) n).accommodationNights = x)
      ∧ (∀ x, d.basicInfo = some x → (getInitialData (some (some d)) n).basicInfo = x)
      ∧ (∀ es, d.expenses = some es →
          (getInitialData (some (some d)) n).expenses = (migrateExpenses n es).1)) := by
  refine ⟨⟨rfl, rfl⟩,
    ⟨fun h => ?_, fun h => ?_, fun h => ?_, fun h => ?_, fun h => ?_, fun h => ?_,
      fun h => ?_, fun h => ?_, fun h => ?_⟩,
    ⟨fun x h => ?_, fun x h => ?_, fun x h => ?_, fun x h => ?_, fun x h => ?_,
      fun x h => ?_, fun x h => ?_, fun x h => ?_, fun es h => ?_⟩⟩ <;>
    simp [getInitialData, defaultData, h]

/-- A fully populated raw payload, used as the C7 witness's persisted
record with every field present. -/
def rawFull : RawTrip :=
  { tripName := some "Alps"
    persons := some 4
    budgetPerPerson := some 50
    hasAccommodation := some true
    accommodationLink := some "https://stay.example"
    accommodationPrice := some 300
    accommodationNights := some 3
    basicInfo := some [{ id := "b1", label := "Dates", value := "June" }]
    expenses := some [eC4b] }

/-- Witness for C7: absent/unparsable records load as the default trip;
the empty record `{}` loads every field at its default; a fully populated
record keeps every persisted value with its expenses migrated. -/
theorem C7_load_witness :
    (getInitialData none 0 = defaultData ∧ getInitialData (some none) 0 = defaultData)
    ∧ ((getInitialData (some (some rawEmpty)) 0).tripName = ""
      ∧ (getInitialData (some (some rawEmpty)) 0).persons = 2
      ∧ (getInitialData (some (some rawEmpty)) 0).budgetPerPerson = 0
      ∧ (getInitialData (some (some rawEmpty)) 0).hasAccommodation = false
      ∧ (getInitialData (some (some rawEmpty)) 0).accommodationLink = ""
      ∧ (getInitialData (some (some rawEmpty)) 0).accommodationPrice = 0
      ∧ (getInitialData (some (some rawEmpty)) 0).accommodationNights = 1
      ∧ (getInitialData (some (some rawEmpty)) 0).basicInfo = []
      ∧ (getInitialData (some (some rawEmpty)) 0).expenses = [])
    ∧ ((getInitialData (some (some rawFull)) 0).tripName = "Alps"
      ∧ (getInitialData (some (some rawFull)) 0).persons = 4
      ∧ (getInitialData (some (some rawFull)) 0).budgetPerPerson = 50
      ∧ (getInitialData (some (some rawFull)) 0).hasAccommodation = true
      ∧ (getInitialData (some (some rawFull)) 0).accommodationLink = "https://stay.example"
      ∧ (getInitialData (some (some rawFull)) 0).accommodationPrice = 300
      ∧ (getInitialData (some (some rawFull)) 0).accommodationNights = 3
      ∧ (getInitialData (some (some rawFull)) 0).basicInfo
          = [{ id := "b1", label := "Dates", value := "June" }]
      ∧ (getInitialData (some (some rawFull)) 0).expenses = (migrateExpenses 0 [eC4b]).1) := by
  have hE := C7_load 0 rawEmpty
  have hF := C7_load 0 rawFull
  refine ⟨hE.1,
    ⟨hE.2.1.1 rfl, hE.2.1.2.1 rfl, hE.2.1.2.2.1 rfl, hE.2.1.2.2.2.1 rfl,
      hE.2.1.2.2.2.2.1 rfl, hE.2.1.2.2.2.2.2.1 rfl, hE.2.1.2.2.2.2.2.2.1 rfl,
      hE.2.1.2.2.2.2.2.2.2.1 rfl, hE.2.1.2.2.2.2.2.2.2.2 rfl⟩,
    ⟨hF.2.2.1 _ rfl, hF.2.2.2.1 _ rfl, hF.2.2.2.2.1 _ rfl, hF.2.2.2.2.2.1 _ rfl,
      hF.2.2.2.2.2.2.1 _ rfl, hF.2.2.2.2.2.2.2.1 _ rfl, hF.2.2.2.2.2.2.2.2.1 _ rfl,
      hF.2.2.2.2.2.2.2.2.2.1 _ rfl, hF.2.2.2.2.2.2.2.2.2.2 _ rfl⟩⟩

/-- C8: the clipboard summary carries a budget status line iff
`budgetPerPerson > 0`; when present it reports under-budget by `remaining`
when `remaining ≥ 0` and over-budget by `|remaining|` when
`remaining < 0`, where `remaining = budgetPerPerson × persons − totalCost`;
a budget of 0 yields no budget line at all (never "over budget"). -/
theorem C8_budget_line (t : TripData) :
    ((budgetStatusLine t).isSome ↔ 0 < t.budgetPerPerson)
    ∧ (0 < t.budgetPerPerson → 0 ≤ remaining t →
        budgetStatusLine t = some (.under (remaining t)))
    ∧ (0 < t.budgetPerPerson → remaining t < 0 →
        budgetStatusLine t = some (.over (-(remaining t))))
    ∧ remaining t = t.budgetPerPerson * t.persons - totalCost t
    ∧ (t.budgetPerPerson = 0 → budgetStatusLine t = none) := by
  refine ⟨?_, fun hb hr => ?_, fun hb hr => ?_, rfl, fun h => ?_⟩
  · unfold budgetStatusLine
    split_ifs with h1 h2 <;> simp_all
  · simp [budgetStatusLine, hb, hr]
  · simp [budgetStatusLine, hb, not_le.mpr hr, abs_of_neg hr]
  · simp [budgetStatusLine, h]

/-- Witness for C8 on the spec's §8 scenario (remaining −60 → over budget
by 60), on the same trip with budget 100 (remaining 140 → under budget),
and on the default trip (budget 0 → no budget line). -/
theorem C8_budget_line_witness :
    remaining tScenario = -60
    ∧ budgetStatusLine tScenario = some (.over 60)
    ∧ remaining { tScenario with budgetPerPerson := 100 } = 140
    ∧ budgetStatusLine { tScenario with budgetPerPerson := 100 } = some (.under 140)
    ∧ budgetStatusLine defaultData = none := by
  have hrem : remaining tScenario = -60 := by
    norm_num [remaining, totalBudget, totalCost, expensesCost, accommodationCost,
      getExpenseTotal, tScenario, defaultData]
  have hrem2 : remaining { tScenario with budgetPerPerson := 100 } = 140 := by
    norm_num [remaining, totalBudget, totalCost, expensesCost, accommodationCost,
      getExpenseTotal, tScenario, defaultData]
  refine ⟨hrem, ?_, hrem2, ?_, ?_⟩
  · have h := (C8_budget_line tScenario).2.2.1
      (by norm_num [tScenario, defaultData]) (by rw [hrem]; norm_num)
    rw [h, hrem]; norm_num
  · have h := (C8_budget_line { tScenario with budgetPerPerson := 100 }).2.1
      (by norm_num) (by rw [hrem2]; norm_num)
    rw [h, hrem2]
  · exact (C8_budget_line defaultData).2.2.2.2 rfl

/-- Pending-write invariant of the debounce model: starting with a write of
`dprev` pending for `tprev + 500`, a trace of mutations each arriving
before the currently pending write fires never writes, and ends with
exactly the write of the last mutation's snapshot pending. -/
theorem runMutations_pending (rest : List (Nat × TripData)) :
    ∀ (tprev : Nat) (dprev : TripData) (w : List TripData),
      withinWindow tprev rest →
      runMutations ⟨some (tprev + 500, dprev), w⟩ rest
        = ⟨some ((rest.foldl (fun _ x => x) (tprev, dprev)).1 + 500,
            (rest.foldl (fun _ x => x) (tprev, dprev)).2), w⟩ := by
  induction rest with
  | nil => intro tprev dprev w _; rfl
  | cons td rest ih =>
      intro tprev dprev w hw
      obtain ⟨t, d⟩ := td
      obtain ⟨h1, h2, h3⟩ := hw
      have hlt : ¬ (tprev + 500 ≤ t) := by omega
      have hadv : advance t ⟨some (tprev + 500, dprev), w⟩ = ⟨some (tprev + 500, dprev), w⟩ := by
        simp [advance, hlt]
      calc runMutations ⟨some (tprev + 500, dprev), w⟩ ((t, d) :: rest)
      _ = runMutations (mutate t d (advance t ⟨some (tprev + 500, dprev), w⟩)) rest := rfl
      _ = runMutations ⟨some (t + 500, d), w⟩ rest := by rw [hadv]; rfl
      _ = _ := by
            rw [ih t d w h3]
            simp [List.foldl_cons]

/-- C9: starting from an idle store, N ≥ 1 mutations each occurring before
the previously scheduled write fires produce no write during the trace;
each mutation cancels the single pending write and reschedules it (the
model's `pending` slot holds at most one write structurally); once the
last mutation's 500 ms window elapses exactly one write fires, carrying
only the final post-mutation snapshot; and teardown before the window
elapses cancels the pending write so that no write ever fires. -/
theorem C9_debounce (t1 : Nat) (d1 : TripData) (rest : List (Nat × TripData))
    (hw : withinWindow t1 rest) :
    (runMutations ⟨none, []⟩ ((t1, d1) :: rest)).writes = []
    ∧ (runMutations ⟨none, []⟩ ((t1, d1) :: rest)).pending
        = some ((rest.foldl (fun _ x => x) (t1, d1)).1 + 500,
            (rest.foldl (fun _ x => x) (t1, d1)).2)
    ∧ (advance ((rest.foldl (fun _ x => x) (t1, d1)).1 + 500)
        (runMutations ⟨none, []⟩ ((t1, d1) :: rest))).writes
        = [(rest.foldl (fun _ x => x) (t1, d1)).2]
    ∧ (advance ((rest.foldl (fun _ x => x) (t1, d1)).1 + 500)
        (runMutations ⟨none, []⟩ ((t1, d1) :: rest))).pending = none
    ∧ teardown (runMutations ⟨none, []⟩ ((t1, d1) :: rest)) = ⟨none, []⟩ := by
  have hrun : runMutations ⟨none, []⟩ ((t1, d1) :: rest)
      = ⟨some ((rest.foldl (fun _ x => x) (t1, d1)).1 + 500,
          (rest.foldl (fun _ x => x) (t1, d1)).2), []⟩ := by
    have hstep : runMutations ⟨none, []⟩ ((t1, d1) :: rest)
        = runMutations ⟨some (t1 + 500, d1), []⟩ rest := rfl
    rw [hstep, runMutations_pending rest t1 d1 [] hw]
  rw [hrun]
  refine ⟨rfl, rfl, ?_, ?_, rfl⟩
  · simp [advance]
  · simp [advance]

/-- Witness for C9: two mutations at times 0 and 100 (within the window),
then the window elapses at time 600: exactly one write fires, carrying the
second snapshot; teardown instead cancels it. -/
theorem C9_debounce_witness :
    (runMutations ⟨none, []⟩ [(0, defaultData), (100, tScenario)]).writes = []
    ∧ (runMutations ⟨none, []⟩ [(0, defaultData), (100, tScenario)]).pending
        = some (600, tScenario)
    ∧ (advance 600 (runMutations ⟨none, []⟩ [(0, defaultData), (100, tScenario)])).writes
        = [tScenario]
    ∧ (advance 600 (runMutations ⟨none, []⟩ [(0, defaultData), (100, tScenario)])).pending = none
    ∧ teardown (runMutations ⟨none, []⟩ [(0, defaultData), (100, tScenario)]) = ⟨none, []⟩ := by
  have h := C9_debounce 0 defaultData [(100, tScenario)]
    ⟨by omega, by omega, trivial⟩
  simpa using h
